import Mathlib

/-!
Shallow embedding of the transcription request handler in
src/python_backend/main.py (function transcribe_audio and its nested
event callbacks), together with proofs of the specified properties.

The provider (Deepgram) is opaque: its behavior during one request is
modelled by an oracle recording whether the session start succeeded,
which events were delivered to the registered callbacks, and whether an
SDK-level exception was raised (and where).  The handler model mirrors
the control flow of main.py lines 24-163 and records, as a trace of
actions, every chunk send and every invocation of the finish (close)
operation together with the connection state at that moment.
-/

namespace IntelliJPA

/-- The fallback value of DEEPGRAM_API_KEY (main.py line 20): the key used
when the environment variable is absent, which the handler must reject. -/
def PLACEHOLDER_KEY : String := "fb7768611a8ea2a7c76d745ccc056966e5a1a93b"

/-- An event delivered by the provider to the registered callbacks.
Only transcript events and error events mutate state (main.py lines 51-82);
all the other events (open, metadata, speechStarted, utteranceEnd, close,
unhandled) are logging-only and are collapsed into one constructor. -/
inductive DGEvent where
  | transcript (sentence : String)
  | error (message : Option String)
  | other
  deriving DecidableEq, Repr

/-- The accumulation step of on_message (main.py lines 51-56): the extracted
sentence is appended to transcription_result, preceded by a single space
when the accumulator is non-empty; empty sentences are ignored. -/
def on_message (transcription_result : String) (sentence : String) : String :=
  if sentence.length > 0 then
    transcription_result ++
      (if transcription_result = "" then sentence else " " ++ sentence)
  else
    transcription_result

/-- The message extraction of on_error (main.py line 76):
str(error.get(..., "Unknown Deepgram error")); absence of the message
field yields the fixed fallback string. -/
def on_error (message : Option String) : String :=
  message.getD "Unknown Deepgram error"

/-- The mutable state captured by the nested callbacks
(main.py lines 32-33). -/
structure CallbackState where
  transcription_result : String
  deepgram_error_message : Option String
  deriving DecidableEq, Repr

/-- Initial callback state (main.py lines 32-33). -/
def initState : CallbackState :=
  { transcription_result := "", deepgram_error_message := none }

/-- One callback invocation: transcript events go through on_message,
error events overwrite the stored message with on_error
(main.py lines 51-56 and 74-78), all other events mutate nothing. -/
def stepEvent (s : CallbackState) (e : DGEvent) : CallbackState :=
  match e with
  | .transcript sentence =>
      { s with transcription_result := on_message s.transcription_result sentence }
  | .error message =>
      { s with deepgram_error_message := some (on_error message) }
  | .other => s

/-- The callback state after a sequence of events has been delivered. -/
def processEvents (events : List DGEvent) : CallbackState :=
  events.foldl stepEvent initState

/-- The fixed chunk size of the streaming loop (main.py line 115). -/
def chunk_size : Nat := 4096

/-- The streaming loop (main.py lines 116-120): repeatedly read up to
chunk_size bytes and send them, until a read returns no data. -/
def sendLoop (data : List Nat) : List (List Nat) :=
  if h : data = [] then []
  else data.take chunk_size :: sendLoop (data.drop chunk_size)
termination_by data.length
decreasing_by
  simp only [List.length_drop]
  have hpos : 0 < data.length := List.length_pos.mpr h
  simp only [chunk_size]
  omega

/-- What the handler hands back to FastAPI: either a JSON body (HTTP 200)
with a transcription field and an optional error field, or a raised
HTTPException with a status code and a detail string. -/
inductive Response where
  | body (transcription : String) (error : Option String)
  | httpError (status : Nat) (detail : String)
  deriving DecidableEq, Repr

/-- The error-free tail of final-state evaluation (main.py lines 134-139):
an empty accumulator yields the no-speech body, otherwise the accumulated
transcription is returned. -/
def finalizeNoError (s : CallbackState) : Response :=
  if s.transcription_result = "" then
    .body "" (some "No speech detected or empty audio.")
  else
    .body s.transcription_result none

/-- Final-state evaluation (main.py lines 130-139).  Line 131 tests the
captured message by Python truthiness: a never-set message (None) and a
captured empty message are both falsy, and only a non-empty captured
message takes the error branch. -/
def finalize (s : CallbackState) : Response :=
  match s.deepgram_error_message with
  | some msg =>
      if msg = "" then finalizeNoError s
      else .body "" (some ("Deepgram error: " ++ msg))
  | none => finalizeNoError s

/-- Character-list matching at the head: needle is an initial segment of
the haystack. -/
def leadMatch : List Char → List Char → Bool
  | [], _ => true
  | _ :: _, [] => false
  | a :: as, b :: bs => a = b && leadMatch as bs

/-- Substring occurrence over character lists, modelling the Python
membership test on strings. -/
def hasSubstr (needle : List Char) : List Char → Bool
  | [] => leadMatch needle []
  | c :: rest => leadMatch needle (c :: rest) || hasSubstr needle rest

/-- The Python expression needle in hay for strings. -/
def strContains (needle hay : String) : Bool :=
  hasSubstr needle.toList hay.toList

/-- Python str.lower applied character by character, as used by the
simplistic authentication check (main.py line 147). -/
def pyLower (s : String) : String := String.mk (s.data.map Char.toLower)

/-- The detail string built in the DeepgramError handler
(main.py lines 145-148): a generic provider API error message, replaced by
the authentication-specific message when the lowercased exception text
contains the substring auth. -/
def authDetail (emsg : String) : String :=
  if strContains "auth" (pyLower emsg) then
    "Deepgram authentication error. Check API Key."
  else
    "Deepgram API error: " ++ emsg

/-- Where, if anywhere, a synchronous exception is raised during the run:
a DeepgramError while creating the connection object (main.py line 44,
dg_connection still None when caught), a DeepgramError raised by start
(main.py line 107, connection never opened), a DeepgramError or a generic
exception during the streaming loop after a number of chunks were already
sent (main.py lines 116-124); emsg is str(e). -/
inductive Fault where
  | ok
  | sdkAtCreate (emsg : String)
  | sdkAtStart (emsg : String)
  | sdkStreaming (sentChunks : Nat) (emsg : String)
  | unexpectedStreaming (sentChunks : Nat) (emsg : String)
  deriving DecidableEq, Repr

/-- The opaque provider behavior for one request: whether
dg_connection.start returned a truthy value, the events delivered to the
callbacks before the handler evaluates its final state, and the fault
scenario. -/
structure Oracle where
  startOk : Bool
  events : List DGEvent
  fault : Fault
  deriving Repr

/-- An observable interaction with the session handle: a send of one chunk,
or an invocation of finish recording whether the connection was still open
at that moment. -/
inductive Action where
  | send (chunk : List Nat)
  | finish (wasConnected : Bool)
  deriving DecidableEq, Repr

/-- The chunks actually sent during a run, in order. -/
def sentData (actions : List Action) : List (List Nat) :=
  actions.filterMap fun a =>
    match a with
    | .send c => some c
    | _ => none

/-- How many finish invocations happened while the connection was open:
the number of effective closes. -/
def effectiveCloses (actions : List Action) : Nat :=
  (actions.filter fun a =>
    match a with
    | .finish true => true
    | _ => false).length

/-- No interaction with the session follows a finish invocation: once
closed, the handle is neither sent to nor closed again. -/
def noUseAfterClose : List Action → Bool
  | [] => true
  | .send _ :: rest => noUseAfterClose rest
  | .finish _ :: rest => rest.isEmpty

/-- The outcome of one request: the response, whether a connection object
was created, whether the session was actually opened (start succeeded),
and the trace of session interactions. -/
structure RunResult where
  response : Response
  sessionCreated : Bool
  sessionOpened : Bool
  actions : List Action
  deriving Repr

/-- The detail of the HTTPException raised when start returns a falsy
value (main.py line 111).  The source uses the Python expression
deepgram_error_message or the generic fallback: a never-set message
(None) and a captured empty message are both falsy, so only a non-empty
captured message is surfaced. -/
def startFailDetail (events : List DGEvent) : String :=
  match (processEvents events).deepgram_error_message with
  | some msg =>
      if msg = "" then "Failed to connect to Deepgram (initiation phase)."
      else msg
  | none => "Failed to connect to Deepgram (initiation phase)."

/-- The send actions of the streaming loop over the uploaded bytes. -/
def streamActions (fileData : List Nat) : List Action :=
  (sendLoop fileData).map Action.send

/-- The request handler transcribe_audio (main.py lines 24-163).
Control flow, in source order: the API-key guard (lines 27-29); the
DeepgramError handler (lines 141-149) for exceptions at connection
creation, at start, or during streaming, closing the session when still
connected; the start-failure HTTPException (lines 107-111), re-raised by
the HTTPException handler (lines 150-153); the streaming loop
(lines 115-120) followed by the end-of-stream finish (line 124) and
final-state evaluation (lines 130-139); the generic exception handler
(lines 154-158); and the finally block (lines 159-163) whose guarded
close attempt is a no-op on every path on which the connection was
already closed or never opened. -/
def transcribe_audio (apiKey : String) (fileData : List Nat) (o : Oracle) :
    RunResult :=
  if apiKey = "" ∨ apiKey = PLACEHOLDER_KEY then
    { response := .httpError 500 "Deepgram API key not configured."
      sessionCreated := false
      sessionOpened := false
      actions := [] }
  else
    match o.fault with
    | .sdkAtCreate emsg =>
        { response := .httpError 500 (authDetail emsg)
          sessionCreated := false
          sessionOpened := false
          actions := [] }
    | .sdkAtStart emsg =>
        { response := .httpError 500 (authDetail emsg)
          sessionCreated := true
          sessionOpened := false
          actions := [] }
    | .sdkStreaming k emsg =>
        if o.startOk then
          { response := .httpError 500 (authDetail emsg)
            sessionCreated := true
            sessionOpened := true
            actions := (streamActions fileData).take k ++ [.finish true] }
        else
          { response := .httpError 500 (startFailDetail o.events)
            sessionCreated := true
            sessionOpened := false
            actions := [] }
    | .unexpectedStreaming k emsg =>
        if o.startOk then
          { response := .httpError 500
              ("An unexpected server error occurred: " ++ emsg)
            sessionCreated := true
            sessionOpened := true
            actions := (streamActions fileData).take k ++ [.finish true] }
        else
          { response := .httpError 500 (startFailDetail o.events)
            sessionCreated := true
            sessionOpened := false
            actions := [] }
    | .ok =>
        if o.startOk then
          { response := finalize (processEvents o.events)
            sessionCreated := true
            sessionOpened := true
            actions := streamActions fileData ++ [.finish true] }
        else
          { response := .httpError 500 (startFailDetail o.events)
            sessionCreated := true
            sessionOpened := false
            actions := [] }

/-- The non-empty transcript fragments carried by a sequence of events,
in arrival order. -/
def fragmentsOf (events : List DGEvent) : List String :=
  events.filterMap fun e =>
    match e with
    | .transcript s => if s.length > 0 then some s else none
    | _ => none

/-- F1 ++ " " ++ F2 ++ ... ++ " " ++ Fn: the space-separated concatenation
the specification describes. -/
def spaceJoined : List String → String
  | [] => ""
  | [f] => f
  | f :: rest => f ++ " " ++ spaceJoined rest

/-- The error messages captured by on_error over a sequence of events,
in arrival order. -/
def errorMsgsOf (events : List DGEvent) : List String :=
  events.filterMap fun e =>
    match e with
    | .error m => some (on_error m)
    | _ => none

/-- The last element of a list of messages, if any. -/
def lastMsg : List String → Option String
  | [] => none
  | [m] => some m
  | _ :: rest => lastMsg rest

theorem sendLoop_nil : sendLoop [] = [] := by
  rw [sendLoop]
  simp

theorem sendLoop_cons (data : List Nat) (h : data ≠ []) :
    sendLoop data = data.take chunk_size :: sendLoop (data.drop chunk_size) := by
  rw [sendLoop]
  simp [h]

theorem sendLoop_join (data : List Nat) : (sendLoop data).flatten = data := by
  by_cases h : data = []
  · subst h
    rw [sendLoop_nil]
    rfl
  · have ih := sendLoop_join (data.drop chunk_size)
    rw [sendLoop_cons data h, List.flatten_cons, ih, List.take_append_drop]
termination_by data.length
decreasing_by
  simp only [List.length_drop, chunk_size]
  have hpos : 0 < data.length := List.length_pos.mpr h
  omega

theorem sendLoop_length (data : List Nat) :
    (sendLoop data).length = (data.length + 4095) / 4096 := by
  by_cases h : data = []
  · subst h
    rw [sendLoop_nil]
    rfl
  · have ih := sendLoop_length (data.drop chunk_size)
    have hpos : 0 < data.length := List.length_pos.mpr h
    rw [sendLoop_cons data h]
    simp only [List.length_cons]
    rw [ih]
    simp only [List.length_drop, chunk_size]
    omega
termination_by data.length
decreasing_by
  simp only [List.length_drop, chunk_size]
  have hpos : 0 < data.length := List.length_pos.mpr h
  omega

theorem sendLoop_chunk_le (data : List Nat) :
    ∀ c ∈ sendLoop data, c.length ≤ chunk_size := by
  by_cases h : data = []
  · subst h
    rw [sendLoop_nil]
    intro c hc
    exact absurd hc (List.not_mem_nil c)
  · have ih := sendLoop_chunk_le (data.drop chunk_size)
    rw [sendLoop_cons data h]
    intro c hc
    rcases List.mem_cons.mp hc with rfl | hc2
    · rw [List.length_take]
      exact min_le_left _ _
    · exact ih c hc2
termination_by data.length
decreasing_by
  simp only [List.length_drop, chunk_size]
  have hpos : 0 < data.length := List.length_pos.mpr h
  omega

theorem sendLoop_dropLast_length (data : List Nat) :
    ∀ c ∈ (sendLoop data).dropLast, c.length = chunk_size := by
  by_cases h : data = []
  · subst h
    rw [sendLoop_nil]
    intro c hc
    exact absurd hc (List.not_mem_nil c)
  · rw [sendLoop_cons data h]
    by_cases h2 : data.drop chunk_size = []
    · rw [h2, sendLoop_nil]
      intro c hc
      exact absurd hc (List.not_mem_nil c)
    · have ih := sendLoop_dropLast_length (data.drop chunk_size)
      rw [sendLoop_cons _ h2, List.dropLast_cons₂]
      intro c hc
      rcases List.mem_cons.mp hc with rfl | hc2
      · have hlt : chunk_size < data.length := by
          by_contra hle
          exact h2 (List.drop_eq_nil_of_le (by omega))
        rw [List.length_take]
        omega
      · rw [← sendLoop_cons _ h2] at hc2
        exact ih c hc2
termination_by data.length
decreasing_by
  simp only [List.length_drop, chunk_size]
  have hpos : 0 < data.length := List.length_pos.mpr h
  omega

theorem sentData_stream (l : List (List Nat)) (b : Bool) :
    sentData (l.map Action.send ++ [Action.finish b]) = l := by
  induction l with
  | nil => rfl
  | cons c t ih =>
      simpa [sentData, List.filterMap_cons] using ih

/-- Claim C4: for every uploaded payload of size S bytes, the streaming
loop issues exactly ceil(S/4096) send calls, each carrying at most 4096
bytes, with only the last possibly shorter, and the concatenation of the
sent chunks equals the input exactly; a 0-byte input produces zero send
calls. -/
theorem claim_C4 (apiKey : String) (fileData : List Nat) (o : Oracle)
    (hkey : ¬(apiKey = "" ∨ apiKey = PLACEHOLDER_KEY))
    (hfault : o.fault = .ok) (hstart : o.startOk = true) :
    sentData (transcribe_audio apiKey fileData o).actions = sendLoop fileData ∧
    (sendLoop fileData).length = (fileData.length + 4095) / 4096 ∧
    (∀ c ∈ sendLoop fileData, c.length ≤ 4096) ∧
    (∀ c ∈ (sendLoop fileData).dropLast, c.length = 4096) ∧
    (sendLoop fileData).flatten = fileData ∧
    (fileData = [] → sendLoop fileData = []) := by
  rcases o with ⟨so, ev, f⟩
  simp only at hfault hstart
  subst hfault
  subst hstart
  refine ⟨?_, sendLoop_length fileData, ?_, ?_, sendLoop_join fileData, ?_⟩
  · simp only [transcribe_audio, if_neg hkey, streamActions]
    exact sentData_stream _ _
  · have := sendLoop_chunk_le fileData
    simpa [chunk_size] using this
  · have := sendLoop_dropLast_length fileData
    simpa [chunk_size] using this
  · intro h
    subst h
    exact sendLoop_nil

/-- The accumulator update for one non-empty fragment: the branch of
on_message taken when the sentence has positive length. -/
def joinStep (acc f : String) : String :=
  acc ++ (if acc = "" then f else " " ++ f)

/-- The tail of a space-joined fragment list: a leading separator before
each fragment. -/
def sepJoin : List String → String
  | [] => ""
  | f :: rest => " " ++ f ++ sepJoin rest

theorem fragmentsOf_cons_transcript (sen : String) (es : List DGEvent) :
    fragmentsOf (.transcript sen :: es) =
      if sen.length > 0 then sen :: fragmentsOf es else fragmentsOf es := by
  by_cases hl : sen.length > 0 <;> simp [fragmentsOf, List.filterMap_cons, hl]

theorem fragmentsOf_cons_error (m : Option String) (es : List DGEvent) :
    fragmentsOf (.error m :: es) = fragmentsOf es := by
  simp [fragmentsOf, List.filterMap_cons]

theorem fragmentsOf_cons_other (es : List DGEvent) :
    fragmentsOf (.other :: es) = fragmentsOf es := by
  simp [fragmentsOf, List.filterMap_cons]

theorem foldl_stepEvent_transcription (events : List DGEvent) (s : CallbackState) :
    (events.foldl stepEvent s).transcription_result =
      (fragmentsOf events).foldl joinStep s.transcription_result := by
  induction events generalizing s with
  | nil => rfl
  | cons e es ih =>
      cases e with
      | transcript sen =>
          rw [List.foldl_cons, ih, fragmentsOf_cons_transcript]
          by_cases hl : sen.length > 0
          · rw [if_pos hl, List.foldl_cons]
            congr 1
            simp [stepEvent, on_message, joinStep, hl]
          · rw [if_neg hl]
            congr 1
            simp [stepEvent, on_message, hl]
      | error m =>
          rw [List.foldl_cons, ih, fragmentsOf_cons_error]
          rfl
      | other =>
          rw [List.foldl_cons, ih, fragmentsOf_cons_other]
          rfl

theorem foldl_joinStep_of_ne (l : List String) (acc : String) (h : acc ≠ "") :
    l.foldl joinStep acc = acc ++ sepJoin l := by
  induction l generalizing acc with
  | nil => simp [sepJoin, String.append_empty]
  | cons f rest ih =>
      have h2 : acc ++ (" " ++ f) ≠ "" := by
        intro hc
        have hlen := congrArg String.length hc
        rw [String.length_append, String.length_append] at hlen
        have hsp : (" " : String).length = 1 := rfl
        have hze : ("" : String).length = 0 := rfl
        rw [hsp, hze] at hlen
        omega
      have hj : joinStep acc f = acc ++ (" " ++ f) := by
        simp only [joinStep, if_neg h]
      rw [List.foldl_cons, hj, ih _ h2]
      have hs : sepJoin (f :: rest) = " " ++ f ++ sepJoin rest := rfl
      rw [hs]
      simp [String.append_assoc]

theorem spaceJoined_cons (f : String) (rest : List String) :
    spaceJoined (f :: rest) = f ++ sepJoin rest := by
  induction rest generalizing f with
  | nil => simp [spaceJoined, sepJoin, String.append_empty]
  | cons g t ih =>
      have h1 : spaceJoined (f :: g :: t) = f ++ " " ++ spaceJoined (g :: t) := rfl
      have h2 : sepJoin (g :: t) = " " ++ g ++ sepJoin t := rfl
      rw [h1, ih g, h2]
      simp [String.append_assoc]

theorem mem_fragmentsOf_ne (events : List DGEvent) :
    ∀ f ∈ fragmentsOf events, f ≠ "" := by
  induction events with
  | nil =>
      intro f hf
      exact absurd hf (List.not_mem_nil f)
  | cons e es ih =>
      cases e with
      | transcript sen =>
          rw [fragmentsOf_cons_transcript]
          by_cases hl : sen.length > 0
          · rw [if_pos hl]
            intro f hf
            rcases List.mem_cons.mp hf with rfl | hf2
            · intro h0
              rw [h0] at hl
              simp at hl
            · exact ih f hf2
          · rw [if_neg hl]
            exact ih
      | error m =>
          rw [fragmentsOf_cons_error]
          exact ih
      | other =>
          rw [fragmentsOf_cons_other]
          exact ih

/-- Claim C1: after all events are processed the accumulated transcript is
the space-joined concatenation of the non-empty fragments in arrival
order, and an event with an empty fragment leaves the callback state
unchanged. -/
theorem claim_C1 (events : List DGEvent) (s : CallbackState) :
    (processEvents events).transcription_result =
      spaceJoined (fragmentsOf events) ∧
    stepEvent s (.transcript "") = s := by
  constructor
  · rw [processEvents, foldl_stepEvent_transcription]
    show (fragmentsOf events).foldl joinStep "" = spaceJoined (fragmentsOf events)
    cases hfe : fragmentsOf events with
    | nil => rfl
    | cons f rest =>
        have hf : f ≠ "" := by
          refine mem_fragmentsOf_ne events f ?_
          rw [hfe]
          exact List.mem_cons_self f rest
        have hj : joinStep "" f = f := by
          simp [joinStep]
        rw [List.foldl_cons, hj, foldl_joinStep_of_ne rest f hf, spaceJoined_cons]
  · rfl

theorem errorMsgsOf_cons_error (m : Option String) (es : List DGEvent) :
    errorMsgsOf (.error m :: es) = on_error m :: errorMsgsOf es := by
  simp [errorMsgsOf, List.filterMap_cons]

theorem errorMsgsOf_cons_transcript (sen : String) (es : List DGEvent) :
    errorMsgsOf (.transcript sen :: es) = errorMsgsOf es := by
  simp [errorMsgsOf, List.filterMap_cons]

theorem errorMsgsOf_cons_other (es : List DGEvent) :
    errorMsgsOf (.other :: es) = errorMsgsOf es := by
  simp [errorMsgsOf, List.filterMap_cons]

theorem lastMsg_isSome (a : String) (l : List String) :
    (lastMsg (a :: l)).isSome = true := by
  induction l generalizing a with
  | nil => rfl
  | cons g t ih => exact ih g

theorem lastMsg_cons (x : String) (l : List String) :
    lastMsg (x :: l) =
      match lastMsg l with
      | none => some x
      | some y => some y := by
  cases l with
  | nil => rfl
  | cons g t =>
      have h1 : lastMsg (x :: g :: t) = lastMsg (g :: t) := rfl
      rw [h1]
      rcases ho : lastMsg (g :: t) with _ | y
      · have hs := lastMsg_isSome g t
        rw [ho] at hs
        simp at hs
      · rfl

theorem foldl_stepEvent_error (events : List DGEvent) (s : CallbackState) :
    (events.foldl stepEvent s).deepgram_error_message =
      match lastMsg (errorMsgsOf events) with
      | none => s.deepgram_error_message
      | some m => some m := by
  induction events generalizing s with
  | nil => rfl
  | cons e es ih =>
      cases e with
      | transcript sen =>
          rw [List.foldl_cons, ih, errorMsgsOf_cons_transcript]
          rfl
      | error m =>
          rw [List.foldl_cons, ih, errorMsgsOf_cons_error, lastMsg_cons]
          rcases lastMsg (errorMsgsOf es) with _ | y <;> rfl
      | other =>
          rw [List.foldl_cons, ih, errorMsgsOf_cons_other]
          rfl

/-- Claim C9: at most one error message is retained (the stored field is a
single optional value), the retained message after all events is the last
delivered error message, and immediately after any error event the
retained message is that event's message. -/
theorem claim_C9 (events : List DGEvent) :
    (processEvents events).deepgram_error_message =
      lastMsg (errorMsgsOf events) ∧
    ∀ (pre : List DGEvent) (m : Option String),
      (processEvents (pre ++ [.error m])).deepgram_error_message =
        some (on_error m) := by
  constructor
  · rw [processEvents, foldl_stepEvent_error]
    rcases lastMsg (errorMsgsOf events) with _ | m <;> rfl
  · intro pre m
    rw [processEvents, List.foldl_append]
    rfl

/-- Witness for claim C4 at a concrete request. -/
theorem claim_C4_witness :
    sentData (transcribe_audio "k" [0, 1, 2] ⟨true, [], .ok⟩).actions =
        sendLoop [0, 1, 2] ∧
    (sendLoop [0, 1, 2]).length = (([0, 1, 2] : List Nat).length + 4095) / 4096 ∧
    (∀ c ∈ sendLoop [0, 1, 2], c.length ≤ 4096) ∧
    (∀ c ∈ (sendLoop [0, 1, 2]).dropLast, c.length = 4096) ∧
    (sendLoop [0, 1, 2]).flatten = [0, 1, 2] ∧
    (([0, 1, 2] : List Nat) = [] → sendLoop [0, 1, 2] = []) :=
  claim_C4 "k" [0, 1, 2] ⟨true, [], .ok⟩ (by decide) rfl rfl

theorem effectiveCloses_append (a b : List Action) :
    effectiveCloses (a ++ b) = effectiveCloses a + effectiveCloses b := by
  simp [effectiveCloses, List.filter_append]

theorem effectiveCloses_sends (l : List (List Nat)) :
    effectiveCloses (l.map Action.send) = 0 := by
  induction l with
  | nil => rfl
  | cons c t ih => simp [effectiveCloses, List.filter_cons]

theorem effectiveCloses_single : effectiveCloses [Action.finish true] = 1 := rfl

theorem noUseAfterClose_stream (l : List (List Nat)) (b : Bool) :
    noUseAfterClose (l.map Action.send ++ [Action.finish b]) = true := by
  induction l with
  | nil => rfl
  | cons c t ih => simpa [noUseAfterClose] using ih

/-- Claim C3: on every code path the number of finish invocations made
while the connection was open is exactly one when the session was opened
and zero otherwise, and no interaction with the session handle follows a
finish invocation: a closed session is never closed again or reused. -/
theorem claim_C3 (apiKey : String) (fileData : List Nat) (o : Oracle) :
    effectiveCloses (transcribe_audio apiKey fileData o).actions =
      (if (transcribe_audio apiKey fileData o).sessionOpened = true then 1 else 0) ∧
    noUseAfterClose (transcribe_audio apiKey fileData o).actions = true := by
  rcases o with ⟨so, ev, f⟩
  by_cases hkey : apiKey = "" ∨ apiKey = PLACEHOLDER_KEY
  · simp [transcribe_audio, hkey, effectiveCloses, noUseAfterClose]
  · cases f <;> cases so <;>
      simp [transcribe_audio, hkey, streamActions, ← List.map_take,
        effectiveCloses_append, effectiveCloses_sends, effectiveCloses_single,
        noUseAfterClose_stream, effectiveCloses, noUseAfterClose]

/-- Claim C2 (amended): when the run reaches final-state evaluation with
a captured provider error message that is non-empty (truthy at the
line-131 check), the handler returns the empty transcription and the
provider-error body, discarding any accumulated fragments. -/
theorem claim_C2 (apiKey : String) (fileData : List Nat) (o : Oracle)
    (msg : String)
    (hkey : ¬(apiKey = "" ∨ apiKey = PLACEHOLDER_KEY))
    (hfault : o.fault = Fault.ok) (hstart : o.startOk = true)
    (herr : (processEvents o.events).deepgram_error_message = some msg)
    (hne : msg ≠ "") :
    (transcribe_audio apiKey fileData o).response =
      Response.body "" (some ("Deepgram error: " ++ msg)) := by
  rcases o with ⟨so, ev, f⟩
  simp only at hfault hstart herr
  subst hfault
  subst hstart
  simp only [transcribe_audio, if_neg hkey]
  simp [finalize, herr, hne]

/-- Counterexample to claim C2 as stated: a provider error event carrying
an empty message is captured at evaluation time, yet the handler keeps
the accumulated fragment and returns a success body, because the captured
empty message is falsy at the line-131 check. -/
theorem claim_C2_counterexample :
    (processEvents
        [.transcript "hello", .error (some "")]).deepgram_error_message =
      some "" ∧
    (transcribe_audio "k" [7]
        ⟨true, [.transcript "hello", .error (some "")], .ok⟩).response =
      Response.body "hello" none ∧
    (transcribe_audio "k" [7]
        ⟨true, [.transcript "hello", .error (some "")], .ok⟩).response ≠
      Response.body "" (some ("Deepgram error: " ++ "")) := by
  refine ⟨rfl, ?_, ?_⟩ <;> decide

/-- Witness for claim C2: a run with one fragment and one non-empty
provider error message returns the error body. -/
theorem claim_C2_witness :
    (transcribe_audio "k" [7]
        ⟨true, [.transcript "hi", .error (some "boom")], .ok⟩).response =
      Response.body "" (some ("Deepgram error: " ++ "boom")) :=
  claim_C2 "k" [7] ⟨true, [.transcript "hi", .error (some "boom")], .ok⟩ "boom"
    (by decide) rfl rfl rfl (by decide)

/-- Claim C5: with an empty or placeholder credential the handler fails
with the server-error status and configuration detail, creating no
session and performing no sends or closes. -/
theorem claim_C5 (apiKey : String) (fileData : List Nat) (o : Oracle)
    (hkey : apiKey = "" ∨ apiKey = PLACEHOLDER_KEY) :
    transcribe_audio apiKey fileData o =
      { response := Response.httpError 500 "Deepgram API key not configured."
        sessionCreated := false
        sessionOpened := false
        actions := [] } := by
  simp [transcribe_audio, hkey]

/-- Witness for claim C5 at the placeholder key. -/
theorem claim_C5_witness :
    transcribe_audio PLACEHOLDER_KEY [1, 2] ⟨true, [], .ok⟩ =
      { response := Response.httpError 500 "Deepgram API key not configured."
        sessionCreated := false
        sessionOpened := false
        actions := [] } :=
  claim_C5 PLACEHOLDER_KEY [1, 2] ⟨true, [], .ok⟩ (Or.inr rfl)

/-- Claim C6: a run reaching final-state evaluation with no captured
provider error and an empty accumulator returns the no-speech body. -/
theorem claim_C6 (apiKey : String) (fileData : List Nat) (o : Oracle)
    (hkey : ¬(apiKey = "" ∨ apiKey = PLACEHOLDER_KEY))
    (hfault : o.fault = Fault.ok) (hstart : o.startOk = true)
    (herr : (processEvents o.events).deepgram_error_message = none)
    (htr : (processEvents o.events).transcription_result = "") :
    (transcribe_audio apiKey fileData o).response =
      Response.body "" (some "No speech detected or empty audio.") := by
  rcases o with ⟨so, ev, f⟩
  simp only at hfault hstart herr htr
  subst hfault
  subst hstart
  simp only [transcribe_audio, if_neg hkey]
  simp [finalize, finalizeNoError, herr, htr]

/-- Witness for claim C6: no events at all yields the no-speech body. -/
theorem claim_C6_witness :
    (transcribe_audio "k" [] ⟨true, [], .ok⟩).response =
      Response.body "" (some "No speech detected or empty audio.") :=
  claim_C6 "k" [] ⟨true, [], .ok⟩ (by decide) rfl rfl rfl rfl

/-- Claim C7 (amended): when start returns a falsy value the handler
raises the server-error status; the detail is the captured provider error
message when that message is non-empty (truthy at the line-111 or), and
the generic connect-failure message when no message was captured or the
captured message is empty; no audio is streamed. -/
theorem claim_C7 (apiKey : String) (fileData : List Nat) (o : Oracle)
    (hkey : ¬(apiKey = "" ∨ apiKey = PLACEHOLDER_KEY))
    (hfault : o.fault = Fault.ok) (hstart : o.startOk = false) :
    (∀ msg, (processEvents o.events).deepgram_error_message = some msg →
      msg ≠ "" →
      (transcribe_audio apiKey fileData o).response =
        Response.httpError 500 msg) ∧
    ((processEvents o.events).deepgram_error_message = none ∨
      (processEvents o.events).deepgram_error_message = some "" →
      (transcribe_audio apiKey fileData o).response =
        Response.httpError 500
          "Failed to connect to Deepgram (initiation phase).") ∧
    (transcribe_audio apiKey fileData o).actions = [] ∧
    (transcribe_audio apiKey fileData o).sessionOpened = false := by
  rcases o with ⟨so, ev, f⟩
  simp only at hfault hstart
  subst hfault
  subst hstart
  have hrun : transcribe_audio apiKey fileData ⟨false, ev, Fault.ok⟩ =
      { response := Response.httpError 500 (startFailDetail ev)
        sessionCreated := true
        sessionOpened := false
        actions := [] } := by
    simp [transcribe_audio, hkey]
  refine ⟨?_, ?_, ?_, ?_⟩
  · intro msg hmsg hne
    rw [hrun]
    simp only at hmsg
    simp [startFailDetail, hmsg, hne]
  · intro hcap
    rw [hrun]
    simp only at hcap
    rcases hcap with hcap | hcap <;> simp [startFailDetail, hcap]
  · rw [hrun]
  · rw [hrun]

/-- Counterexample to claim C7 as stated: a captured empty provider error
message is falsy at the line-111 or, so the raised detail is the generic
connect-failure message, not the captured message. -/
theorem claim_C7_counterexample :
    (processEvents [.error (some "")]).deepgram_error_message = some "" ∧
    (transcribe_audio "k" [1] ⟨false, [.error (some "")], .ok⟩).response =
      Response.httpError 500
        "Failed to connect to Deepgram (initiation phase)." ∧
    (transcribe_audio "k" [1] ⟨false, [.error (some "")], .ok⟩).response ≠
      Response.httpError 500 "" := by
  refine ⟨rfl, ?_, ?_⟩ <;> decide

/-- Witness for claim C7: start failure after a captured non-empty error
message surfaces that message, with no audio streamed. -/
theorem claim_C7_witness :
    (transcribe_audio "k" [1] ⟨false, [.error (some "nope")], .ok⟩).response =
      Response.httpError 500 "nope" ∧
    (transcribe_audio "k" [1] ⟨false, [.error (some "nope")], .ok⟩).actions =
      [] :=
  ⟨(claim_C7 "k" [1] ⟨false, [.error (some "nope")], .ok⟩
      (by decide) rfl rfl).1 "nope" rfl (by decide),
   (claim_C7 "k" [1] ⟨false, [.error (some "nope")], .ok⟩
      (by decide) rfl rfl).2.2.1⟩

/-- Claim C8: a DeepgramError during session setup yields the server-error
status with the provider API detail and no close of a never-opened
session; a DeepgramError during streaming yields the same response with
exactly one effective close of the open session; the detail is the
authentication-specific message exactly when the lowercased exception
text contains auth. -/
theorem claim_C8 (apiKey : String) (fileData : List Nat) (o : Oracle)
    (k : Nat) (emsg : String)
    (hkey : ¬(apiKey = "" ∨ apiKey = PLACEHOLDER_KEY)) :
    ((o.fault = Fault.sdkAtCreate emsg ∨ o.fault = Fault.sdkAtStart emsg) →
      (transcribe_audio apiKey fileData o).response =
          Response.httpError 500 (authDetail emsg) ∧
      effectiveCloses (transcribe_audio apiKey fileData o).actions = 0 ∧
      (transcribe_audio apiKey fileData o).sessionOpened = false) ∧
    (o.fault = Fault.sdkStreaming k emsg → o.startOk = true →
      (transcribe_audio apiKey fileData o).response =
          Response.httpError 500 (authDetail emsg) ∧
      effectiveCloses (transcribe_audio apiKey fileData o).actions = 1) ∧
    (strContains "auth" (pyLower emsg) = true →
      authDetail emsg = "Deepgram authentication error. Check API Key.") ∧
    (strContains "auth" (pyLower emsg) = false →
      authDetail emsg = "Deepgram API error: " ++ emsg) := by
  refine ⟨?_, ?_, ?_, ?_⟩
  · intro hf
    rcases o with ⟨so, ev, f⟩
    simp only at hf
    rcases hf with rfl | rfl <;>
      simp [transcribe_audio, if_neg hkey, effectiveCloses]
  · intro hf hs
    rcases o with ⟨so, ev, f⟩
    simp only at hf hs
    subst hf
    subst hs
    refine ⟨?_, ?_⟩
    · simp [transcribe_audio, if_neg hkey]
    · simp [transcribe_audio, if_neg hkey, streamActions, ← List.map_take,
        effectiveCloses_append, effectiveCloses_sends, effectiveCloses_single]
  · intro hA
    simp [authDetail, hA]
  · intro hA
    simp [authDetail, hA]

/-- Witness for claim C8: an authentication-flavored DeepgramError during
streaming closes the session once and reports the specific message. -/
theorem claim_C8_witness :
    (transcribe_audio "k" [] ⟨true, [], .sdkStreaming 0 "auth bad"⟩).response =
        Response.httpError 500 (authDetail "auth bad") ∧
    effectiveCloses
        (transcribe_audio "k" [] ⟨true, [], .sdkStreaming 0 "auth bad"⟩).actions = 1 ∧
    authDetail "auth bad" = "Deepgram authentication error. Check API Key." :=
  ⟨((claim_C8 "k" [] ⟨true, [], .sdkStreaming 0 "auth bad"⟩ 0 "auth bad"
      (by decide)).2.1 rfl rfl).1,
   ((claim_C8 "k" [] ⟨true, [], .sdkStreaming 0 "auth bad"⟩ 0 "auth bad"
      (by decide)).2.1 rfl rfl).2,
   (claim_C8 "k" [] ⟨true, [], .sdkStreaming 0 "auth bad"⟩ 0 "auth bad"
      (by decide)).2.2.1 (by decide)⟩

/-- Claim C10: an error event with no message field stores the fixed
fallback string, and a run finalizing right after such an event returns
the corresponding error body. -/
theorem claim_C10 (apiKey : String) (fileData : List Nat) (o : Oracle)
    (s : CallbackState) (pre : List DGEvent)
    (hkey : ¬(apiKey = "" ∨ apiKey = PLACEHOLDER_KEY))
    (hfault : o.fault = Fault.ok) (hstart : o.startOk = true)
    (hev : o.events = pre ++ [DGEvent.error none]) :
    (stepEvent s (DGEvent.error none)).deepgram_error_message =
      some "Unknown Deepgram error" ∧
    (transcribe_audio apiKey fileData o).response =
      Response.body "" (some "Deepgram error: Unknown Deepgram error") := by
  rcases o with ⟨so, ev, f⟩
  simp only at hfault hstart hev
  subst hfault
  subst hstart
  subst hev
  constructor
  · rfl
  · have herr : (processEvents
        (pre ++ [DGEvent.error none])).deepgram_error_message =
        some "Unknown Deepgram error" := by
      rw [processEvents, List.foldl_append]
      rfl
    simp only [transcribe_audio, if_neg hkey]
    have hne : ("Unknown Deepgram error" : String) ≠ "" := by decide
    simp [finalize, herr, hne]

/-- Witness for claim C10: a single message-less error event produces the
fallback error body. -/
theorem claim_C10_witness :
    (stepEvent initState (DGEvent.error none)).deepgram_error_message =
      some "Unknown Deepgram error" ∧
    (transcribe_audio "k" [] ⟨true, [DGEvent.error none], .ok⟩).response =
      Response.body "" (some "Deepgram error: Unknown Deepgram error") :=
  claim_C10 "k" [] ⟨true, [DGEvent.error none], .ok⟩ initState []
    (by decide) rfl rfl rfl

end IntelliJPA
